import Mathlib

/-!
Shallow embedding of the Docker-Resume-JD-Matcher frontend scripts.

The primary implementation is `src/frontend/script.js` (the tooltip toggle,
the form submit handler and `renderResults`).  One unnamed variant,
`src/unnamed/part_003` (its second `showResults` copy), carries a
special-case branch for the `context` / `content_quality` sections and is
embedded separately as `showSuggBlock` / `showTooltipBlock` / `showCard`.

Server-provided suggestion fields are JavaScript values that may be a
string or an array of strings, or absent; JS truthiness (`undefined` and
`""` are falsy, every array is truthy) drives the `||` fallbacks, so the
embedding models those fields as `Option SVal` with an explicit `truthy`.
-/

/-- Value of an optional suggestion-like field in the decoded JSON:
either a single string or a sequence of strings. -/
inductive SVal where
  | str (s : String)
  | arr (xs : List String)
deriving DecidableEq, Repr

/-- JavaScript truthiness of an optional string-or-array field:
`undefined` and `""` are falsy, any array (even empty) is truthy. -/
def truthy : Option SVal → Bool
  | none => false
  | some (SVal.str s) => !(s == "")
  | some (SVal.arr _) => true

/-- JavaScript `a || b` on optional string-or-array fields. -/
def jsOr (a b : Option SVal) : Option SVal :=
  if truthy a then a else b

/-- JavaScript `Array.isArray(v) && v.length > 0`. -/
def isNonemptyArr : Option SVal → Bool
  | some (SVal.arr xs) => !xs.isEmpty
  | _ => false

/-- Elements of an array-valued field (used only under `isNonemptyArr`). -/
def arrElems : Option SVal → List String
  | some (SVal.arr xs) => xs
  | _ => []

/-- One section of the decoded JSON payload (`SectionScore`): a display
label `type`, a numeric `score`, and four optional fields. -/
structure SectionScore where
  type : String
  score : Int
  suggestions : Option SVal := none
  short_suggestions : Option SVal := none
  long_suggestions : Option SVal := none
  missing_keywords : Option SVal := none
deriving DecidableEq, Repr

/-- The decoded JSON object: section key to `SectionScore`, modelled as an
association list; `results[key]` is first-match lookup. -/
abbrev AnalysisResult := List (String × SectionScore)

/-- JavaScript `results[key]`; absent key yields `undefined` (`none`). -/
def getSection (r : AnalysisResult) (key : String) : Option SectionScore :=
  r.lookup key

/-- The primary suggestion block of a rendered card: nothing, a bulleted
list (one item per element), or a single paragraph. -/
inductive SuggBlock where
  | empty
  | list (items : List String)
  | para (text : String)
deriving DecidableEq, Repr

/-- One formatted long-suggestion list item: a main bullet and nested
sub-bullets (from `formatLongSuggestions` in script.js). -/
structure LItem where
  main : String
  subs : List String
deriving DecidableEq, Repr

/-- A rendered detail disclosure: its element id, its caption, and its
content list items. -/
structure Tooltip where
  tid : String
  label : String
  items : List LItem
deriving DecidableEq, Repr

/-- One rendered section card. `script.js` assembles
`header + score + missingHTML + suggestionsHTML + tooltipHTML`. -/
structure Card where
  key : String
  header : String
  score : Int
  missing : Option (List String)
  sugg : SuggBlock
  tooltip : Option Tooltip
deriving DecidableEq, Repr

/-- `emojiMap[key] || ""` from script.js `renderResults`. -/
def emojiFor (key : String) : String :=
  if key == "total" then "🎯"
  else if key == "missingkeywords" then "❌"
  else if key == "sections" then "📄"
  else if key == "formatting" then "🛠️"
  else if key == "content quality" then "✍️"
  else if key == "context" then "🧩"
  else ""

/-- The advisory paragraph text script.js renders for the
`missingkeywords` section (the 💡 marker is part of the paragraph). -/
def missingKeywordsAdvisory : String :=
  "💡 Add these terms somewhere in your resume to improve ATS compatibility"

/-- Missing-keywords block: emitted when `missing_keywords` is a non-empty
array (`Array.isArray(v) && v.length > 0`), one item per keyword. -/
def missingBlock (item : SectionScore) : Option (List String) :=
  match item.missing_keywords with
  | some (SVal.arr ks) => if !ks.isEmpty then some ks else none
  | _ => none

/-- Primary suggestion block of script.js `renderResults`: the
`missingkeywords` key always gets the fixed advisory paragraph; every
other key resolves `item.short_suggestions || item.suggestions`, rendering
a non-empty array as a list, a string as a paragraph, anything else as
nothing. -/
def suggBlockFor (key : String) (item : SectionScore) : SuggBlock :=
  if key == "missingkeywords" then
    SuggBlock.para missingKeywordsAdvisory
  else
    match jsOr item.short_suggestions item.suggestions with
    | some (SVal.arr xs) => if !xs.isEmpty then SuggBlock.list xs else SuggBlock.empty
    | some (SVal.str s) => SuggBlock.para s
    | none => SuggBlock.empty

/-- script.js `sanitizeKey`: `key.replace(/\s+/g, '_')` — each maximal run
of whitespace becomes a single underscore. -/
def sanitizeKey (key : String) : String :=
  (key.data.foldl
    (fun acc c =>
      if c.isWhitespace then
        (if acc.2 then acc.1 else acc.1.push '_', true)
      else
        (acc.1.push c, false))
    ("", false)).1

/-- script.js `formatLongSuggestions`: each suggestion is split on `". "`
and blank pieces are dropped; a single sentence becomes one bullet with a
normalized trailing period; several sentences become a main bullet (first
sentence plus a period, untrimmed) with the rest as normalized
sub-bullets.  When every piece is blank, JS reads `sentences[0]` as
`undefined`, which string-concatenates to the text "undefined.". -/
def formatLongSuggestions (longSuggestions : List String) : List LItem :=
  longSuggestions.map (fun suggestion =>
    let sentences := (suggestion.splitOn ". ").filter (fun s => !s.trim.isEmpty)
    match sentences with
    | [s] => { main := s.trim ++ (if s.endsWith "." then "" else "."), subs := [] }
    | [] => { main := "undefined.", subs := [] }
    | s0 :: rest =>
        { main := s0 ++ ".",
          subs := rest.map (fun s => s.trim ++ (if s.endsWith "." then "" else ".")) })

/-- Detail disclosure of script.js `renderResults`: emitted only when
`long_suggestions` is a non-empty array; its id is the sanitized key plus
`-tooltip` and its caption is `💬 View Details`. -/
def tooltipBlock (key : String) (item : SectionScore) : Option Tooltip :=
  match item.long_suggestions with
  | some (SVal.arr xs) =>
      if !xs.isEmpty then
        some { tid := sanitizeKey key ++ "-tooltip",
               label := "💬 View Details",
               items := formatLongSuggestions xs }
      else none
  | _ => none

/-- One card of script.js `renderResults` for a present section. -/
def mkCard (key : String) (item : SectionScore) : Card :=
  { key := key
  , header := emojiFor key ++ " " ++ item.type
  , score := item.score
  , missing := missingBlock item
  , sugg := suggBlockFor key item
  , tooltip := tooltipBlock key item }

/-- The fixed key iteration order of script.js `renderResults`. -/
def canonicalKeys : List String :=
  ["total", "missingkeywords", "sections", "formatting", "content quality", "context"]

/-- script.js `renderResults`: walk the canonical keys in order, skip a
key whose lookup is falsy (`if (!item) return`), and append one card per
present key. -/
def renderResults (results : AnalysisResult) : List Card :=
  canonicalKeys.foldl
    (fun acc key =>
      match getSection results key with
      | some item => acc ++ [mkCard key item]
      | none => acc)
    []

/-- The fixed key iteration order of the second `showResults` copy in
`src/unnamed/part_003` (underscore spelling of the content-quality key). -/
def showKeys : List String :=
  ["total", "missingkeywords", "sections", "formatting", "content_quality", "context"]

/-- Primary suggestion block of `showResults` (part_003, second copy):
for `context` / `content_quality` with a non-empty `short_suggestions`
array, the block lists exactly those short suggestions; every other case
takes the else-branch, resolving `item.suggestions || item.short_suggestions`
with the usual array/string rendering. -/
def showSuggBlock (key : String) (item : SectionScore) : SuggBlock :=
  if (key == "context" || key == "content_quality")
      && isNonemptyArr item.short_suggestions then
    SuggBlock.list (arrElems item.short_suggestions)
  else
    match jsOr item.suggestions item.short_suggestions with
    | some (SVal.arr xs) => if !xs.isEmpty then SuggBlock.list xs else SuggBlock.empty
    | some (SVal.str s) => SuggBlock.para s
    | none => SuggBlock.empty

/-- Detail disclosure of `showResults` (part_003, second copy): only the
`context` / `content_quality` special branch renders one, and only when
`long_suggestions` is a non-empty array; items are plain bullets. -/
def showTooltipBlock (key : String) (item : SectionScore) : Option Tooltip :=
  if (key == "context" || key == "content_quality")
      && isNonemptyArr item.short_suggestions then
    match item.long_suggestions with
    | some (SVal.arr xs) =>
        if !xs.isEmpty then
          some { tid := key ++ "-tooltip",
                 label := "💬 Details",
                 items := xs.map (fun s => { main := s, subs := [] }) }
        else none
    | _ => none
  else none

/-- One card of `showResults` (part_003, second copy); the header carries
no emoji in this variant. -/
def showCard (key : String) (item : SectionScore) : Card :=
  { key := key
  , header := item.type
  , score := item.score
  , missing := missingBlock item
  , sugg := showSuggBlock key item
  , tooltip := showTooltipBlock key item }

/-- `showResults` of part_003 (second copy): same iteration/skip shape as
`renderResults`, over `showKeys`. -/
def showResults (results : AnalysisResult) : List Card :=
  showKeys.foldl
    (fun acc key =>
      match getSection results key with
      | some item => acc ++ [showCard key item]
      | none => acc)
    []

/-- The DOM state the tooltip toggle touches: for each element id, whether
the element exists and whether it carries the `visible` class. -/
structure Dom where
  existsId : String → Bool
  visible : String → Bool

/-- script.js `toggleTooltip(id)`: look the element up by id and, when it
exists, toggle its `visible` class; other elements are untouched. -/
def toggleTooltip (id : String) (d : Dom) : Dom :=
  if d.existsId id then
    { d with visible := fun j => if j == id then !(d.visible j) else d.visible j }
  else d

/-- A file chosen in one of the form's file inputs (name and MIME type). -/
structure WebFile where
  name : String
  type : String
deriving DecidableEq, Repr

/-- Default used to read the head of a file list already known non-empty. -/
def dWebFile : WebFile := { name := "", type := "" }

/-- The MIME allow-list of the submit handler. -/
def allowedTypes : List String :=
  ["application/pdf", "application/msword",
   "application/vnd.openxmlformats-officedocument.wordprocessingml.document"]

/-- The form contents at submission time: the two file inputs. -/
structure SubmitInput where
  resumeFiles : List WebFile
  jdFiles : List WebFile
deriving DecidableEq, Repr

/-- Outcome of the single `fetch('/api/match-files')` call: a 2xx response
with a decoded body (falsy body as `none`), a non-2xx status, or a thrown
exception (network or decode failure). -/
inductive HttpOutcome where
  | ok (result : Option AnalysisResult)
  | httpError (code : Nat)
  | exn (msg : String)
deriving DecidableEq, Repr

/-- The placeholder text of the result area. -/
def placeholderText : String := "Results will be shown here after analysis."

/-- The page state the submit handler mutates: the status element, the
result container and the analyze button. -/
structure UIState where
  statusText : String
  statusSuccess : Bool
  resultsPlaceholder : Bool
  resultsText : String
  resultsPointerEvents : Bool
  resultsViews : List Card
  analyzeDisabled : Bool
  analyzeLabel : String
deriving DecidableEq, Repr

/-- A full run of the submit handler: the final page state, how many
network calls were issued, and the button's disabled flag observed at the
moment of the call (`none` when no call happened). -/
structure SubmitResult where
  final : UIState
  fetchCount : Nat
  btnDisabledAtFetch : Option Bool
deriving DecidableEq, Repr

/-- The `Reset UI` prelude of the script.js submit handler. -/
def resetUI (st : UIState) : UIState :=
  { st with statusSuccess := false
          , statusText := ""
          , resultsPlaceholder := true
          , resultsText := placeholderText
          , resultsViews := []
          , resultsPointerEvents := false }

/-- The spinner markup the handler puts on the button while analyzing. -/
def spinnerLabel : String :=
  "<div class=\"spinner\" aria-hidden=\"true\"></div> Analyzing..."

/-- The script.js submit handler, one request/response cycle: reset the
UI, validate synchronously (four early returns, no fetch), then disable
the button, fetch once, handle the outcome in try/catch, and re-enable the
button in `finally`. -/
def handleSubmit (st0 : UIState) (inp : SubmitInput) (resp : HttpOutcome) : SubmitResult :=
  let st := resetUI st0
  if inp.resumeFiles.length == 0 then
    { final := { st with statusText := "Please upload a resume file." }
    , fetchCount := 0, btnDisabledAtFetch := none }
  else if inp.jdFiles.length == 0 then
    { final := { st with statusText := "Please upload a job description file." }
    , fetchCount := 0, btnDisabledAtFetch := none }
  else
    let resumeFile := inp.resumeFiles.headD dWebFile
    let jdFile := inp.jdFiles.headD dWebFile
    if !(allowedTypes.contains resumeFile.type) then
      { final := { st with statusText := "Invalid resume file format. Please upload PDF or DOCX." }
      , fetchCount := 0, btnDisabledAtFetch := none }
    else if !(allowedTypes.contains jdFile.type) then
      { final := { st with statusText := "Invalid job description file format. Please upload PDF or DOCX." }
      , fetchCount := 0, btnDisabledAtFetch := none }
    else
      let st := { st with analyzeDisabled := true, analyzeLabel := spinnerLabel }
      let atFetch := st.analyzeDisabled
      let stAfter :=
        match resp with
        | HttpOutcome.ok (some result) =>
            { st with statusText := "Analysis complete."
                    , statusSuccess := true
                    , resultsPlaceholder := false
                    , resultsPointerEvents := true
                    , resultsText := ""
                    , resultsViews := renderResults result }
        | HttpOutcome.ok none =>
            { st with statusText := "No results returned from server."
                    , resultsPlaceholder := true
                    , resultsText := placeholderText
                    , resultsViews := [] }
        | HttpOutcome.httpError code =>
            { st with statusText := "Upload failed with status " ++ toString code
                    , resultsPlaceholder := true
                    , resultsText := placeholderText
                    , resultsViews := [] }
        | HttpOutcome.exn msg =>
            { st with statusText := if msg == "" then "Error processing the request." else msg
                    , resultsPlaceholder := true
                    , resultsText := placeholderText
                    , resultsViews := [] }
      { final := { stAfter with analyzeDisabled := false, analyzeLabel := "Analyze Match" }
      , fetchCount := 1, btnDisabledAtFetch := some atFetch }

/-- Whether the first character list starts the second. -/
def listStartsWith : List Char → List Char → Bool
  | [], _ => true
  | _ :: _, [] => false
  | a :: as, b :: bs => a == b && listStartsWith as bs

/-- Whether `pat` occurs as a contiguous run of the character list. -/
def listContainsSub (pat : List Char) : List Char → Bool
  | [] => pat.isEmpty
  | c :: rest => listStartsWith pat (c :: rest) || listContainsSub pat rest

/-- Substring test: whether `pat` occurs inside `s`. -/
def containsSubstring (s pat : String) : Bool :=
  listContainsSub pat.data s.data

/-- A `sections` payload carrying both suggestion fields with different
contents. -/
def cexSections : SectionScore :=
  { type := "Sections", score := 70, suggestions := some (SVal.arr ["a"]), short_suggestions := some (SVal.arr ["b"]) }

/-- A `context` payload with `suggestions` only (`short_suggestions` absent). -/
def cexContext : SectionScore :=
  { type := "Context", score := 50, suggestions := some (SVal.arr ["x"]) }

/-- A `context` payload with a non-empty `short_suggestions` array. -/
def witC2item : SectionScore :=
  { type := "Context", score := 50, short_suggestions := some (SVal.arr ["a", "b"]) }

/-- A `missingkeywords` payload with one missing keyword. -/
def cexMissing : SectionScore :=
  { type := "Missing Keywords", score := 40, missing_keywords := some (SVal.arr ["python"]) }

/-- A `formatting` payload with `suggestions` only. -/
def witC1item : SectionScore :=
  { type := "Formatting", score := 10, suggestions := some (SVal.arr ["a"]) }

/-- A `formatting` payload with a present-but-empty `short_suggestions`
array next to a non-empty `suggestions` array. -/
def witC10item : SectionScore :=
  { type := "Formatting", score := 10, suggestions := some (SVal.arr ["x"]), short_suggestions := some (SVal.arr []) }

/-- A DOM in which every id resolves and every disclosure is collapsed. -/
def exDom : Dom := { existsId := fun _ => true, visible := fun _ => false }

/-- The page state right after load. -/
def uiInit : UIState :=
  { statusText := "", statusSuccess := false, resultsPlaceholder := true, resultsText := placeholderText, resultsPointerEvents := true, resultsViews := [], analyzeDisabled := false, analyzeLabel := "Analyze Match" }

/-- A resume PDF pick. -/
def pdfResume : WebFile := { name := "resume.pdf", type := "application/pdf" }

/-- A job-description PDF pick. -/
def pdfJd : WebFile := { name := "jd.pdf", type := "application/pdf" }

/-- A submission with both files selected and allowed. -/
def exInput : SubmitInput := { resumeFiles := [pdfResume], jdFiles := [pdfJd] }

/-- A submission with no resume file selected. -/
def exNoResume : SubmitInput := { resumeFiles := [], jdFiles := [pdfJd] }

/-- Unrolling the `forEach` fold of `renderResults` to a `filterMap`. -/
theorem render_foldl_eq (results : AnalysisResult) (ks : List String) (acc : List Card) :
    ks.foldl
      (fun acc key =>
        match getSection results key with
        | some item => acc ++ [mkCard key item]
        | none => acc)
      acc
    = acc ++ ks.filterMap (fun key => (getSection results key).map (mkCard key)) := by
  induction ks generalizing acc with
  | nil => simp
  | cons k ks ih =>
    cases h : getSection results k with
    | none => simp [List.foldl_cons, h, ih]
    | some item => simp [List.foldl_cons, h, ih]

/-- The keys of the emitted cards are the present canonical keys. -/
theorem keys_of_filterMap (r : AnalysisResult) (ks : List String) :
    (ks.filterMap (fun key => (getSection r key).map (mkCard key))).map Card.key
      = ks.filter (fun k => (getSection r k).isSome) := by
  induction ks with
  | nil => rfl
  | cons k ks ih =>
    cases h : getSection r k with
    | none => simp [h, ih]
    | some item => simp [h, ih, mkCard]

/-- Claim C4: `renderResults` emits exactly one section view per key that
is both in the canonical ordering list and present in the input, in
canonical order; an absent key yields no view, and no key yields more
than one view. -/
theorem claim_C4 (r : AnalysisResult) :
    (renderResults r).map Card.key = canonicalKeys.filter (fun k => (getSection r k).isSome)
    ∧ ∀ k, ((renderResults r).map Card.key).count k ≤ 1 := by
  have h1 : (renderResults r).map Card.key
      = canonicalKeys.filter (fun k => (getSection r k).isSome) := by
    rw [renderResults, render_foldl_eq]
    simpa using keys_of_filterMap r canonicalKeys
  refine ⟨h1, fun k => ?_⟩
  rw [h1]
  have hnd : (canonicalKeys.filter (fun k => (getSection r k).isSome)).Nodup :=
    List.Nodup.filter _ (by decide)
  exact List.nodup_iff_count_le_one.mp hnd k

/-- Claim C5: a section's detail disclosure is rendered if and only if its
`long_suggestions` field is a non-empty sequence. -/
theorem claim_C5 (key : String) (item : SectionScore) :
    (mkCard key item).tooltip ≠ none ↔
      ∃ xs, item.long_suggestions = some (SVal.arr xs) ∧ xs ≠ [] := by
  cases h : item.long_suggestions with
  | none => simp [mkCard, tooltipBlock, h]
  | some v =>
    cases v with
    | str s => simp [mkCard, tooltipBlock, h]
    | arr xs =>
      by_cases he : xs = []
      · subst he
        simp [mkCard, tooltipBlock, h]
      · simp [mkCard, tooltipBlock, h, he, List.isEmpty_eq_false_iff_exists_mem]

/-- Claim C1 counterexample: a `sections` payload carries both fields, yet
`renderResults` renders `short_suggestions` (`["b"]`), not `suggestions`
(`["a"]`) as the claim predicts. -/
theorem claim_C1_cex :
    cexSections.suggestions = some (SVal.arr ["a"])
    ∧ cexSections.short_suggestions = some (SVal.arr ["b"])
    ∧ (mkCard "sections" cexSections).sugg = SuggBlock.list ["b"]
    ∧ (mkCard "sections" cexSections).sugg ≠ SuggBlock.list ["a"] :=
  ⟨rfl, rfl, rfl, by decide⟩

/-- Claim C1 (amended): for keys other than `missingkeywords`, `context`
and `content quality`, the renderer selects `short_suggestions` when that
field is truthy and falls back to `suggestions` only when
`short_suggestions` is absent; a non-empty resolved sequence renders as a
bulleted list with one item per element, a resolved string as a single
paragraph, and nothing renders when both fields are absent. -/
theorem claim_C1_amended (key : String) (item : SectionScore)
    (hk1 : key ≠ "missingkeywords") (hk2 : key ≠ "context") (hk3 : key ≠ "content quality") :
    (∀ xs, item.short_suggestions = some (SVal.arr xs) → xs ≠ [] →
        (mkCard key item).sugg = SuggBlock.list xs)
    ∧ (∀ s, item.short_suggestions = some (SVal.str s) → s ≠ "" →
        (mkCard key item).sugg = SuggBlock.para s)
    ∧ (item.short_suggestions = none →
        (∀ xs, item.suggestions = some (SVal.arr xs) → xs ≠ [] →
            (mkCard key item).sugg = SuggBlock.list xs)
        ∧ (∀ s, item.suggestions = some (SVal.str s) →
            (mkCard key item).sugg = SuggBlock.para s)
        ∧ (item.suggestions = none → (mkCard key item).sugg = SuggBlock.empty)) := by
  have hbeq : (key == "missingkeywords") = false := by
    simpa using hk1
  refine ⟨?_, ?_, ?_⟩
  · intro xs hxs hne
    simp [mkCard, suggBlockFor, hbeq, jsOr, truthy, hxs, hne]
  · intro s hs hne
    simp [mkCard, suggBlockFor, hbeq, jsOr, truthy, hs, hne]
  · intro hnone
    refine ⟨?_, ?_, ?_⟩
    · intro xs hxs hne
      simp [mkCard, suggBlockFor, hbeq, jsOr, truthy, hnone, hxs, hne]
    · intro s hs
      simp [mkCard, suggBlockFor, hbeq, jsOr, truthy, hnone, hs]
    · intro hs
      simp [mkCard, suggBlockFor, hbeq, jsOr, truthy, hnone, hs]

/-- Claim C1 witness: the amended rule at a concrete `formatting` payload
whose only field is `suggestions`. -/
theorem claim_C1_wit :
    "formatting" ≠ "missingkeywords"
    ∧ witC1item.short_suggestions = none
    ∧ (mkCard "formatting" witC1item).sugg = SuggBlock.list ["a"] :=
  ⟨by decide, rfl,
   ((claim_C1_amended "formatting" witC1item (by decide) (by decide) (by decide)).2.2
     rfl).1 ["a"] rfl (by decide)⟩

/-- Claim C2 counterexample: a `context` payload with `short_suggestions`
absent and `suggestions = ["x"]` makes `showResults` emit a non-empty
suggestion block built from `suggestions`, where the claim requires an
empty block and no fallback. -/
theorem claim_C2_cex :
    cexContext.short_suggestions = none
    ∧ cexContext.suggestions = some (SVal.arr ["x"])
    ∧ showSuggBlock "context" cexContext = SuggBlock.list ["x"]
    ∧ SuggBlock.list ["x"] ≠ SuggBlock.empty :=
  ⟨rfl, rfl, rfl, by decide⟩

/-- Claim C2 (amended): for `context` / `content_quality`, the suggestion
block contains exactly the elements of `short_suggestions` when that field
is a non-empty sequence; when `short_suggestions` is absent the renderer
falls back to the `suggestions` field (a non-empty sequence there renders
as the block), and the block is empty when both fields are absent. -/
theorem claim_C2_amended (key : String) (item : SectionScore)
    (hk : key = "context" ∨ key = "content_quality") :
    (∀ xs, item.short_suggestions = some (SVal.arr xs) → xs ≠ [] →
        showSuggBlock key item = SuggBlock.list xs)
    ∧ (item.short_suggestions = none →
        ∀ ys, item.suggestions = some (SVal.arr ys) → ys ≠ [] →
          showSuggBlock key item = SuggBlock.list ys)
    ∧ (item.short_suggestions = none → item.suggestions = none →
        showSuggBlock key item = SuggBlock.empty) := by
  have hbeq : (key == "context" || key == "content_quality") = true := by
    rcases hk with h | h <;> subst h <;> decide
  refine ⟨?_, ?_, ?_⟩
  · intro xs hxs hne
    simp [showSuggBlock, hbeq, isNonemptyArr, arrElems, hxs, hne]
  · intro hnone ys hys hne
    simp [showSuggBlock, hbeq, isNonemptyArr, arrElems, hnone, jsOr, truthy, hys, hne]
  · intro hnone hsnone
    simp [showSuggBlock, hbeq, isNonemptyArr, arrElems, hnone, jsOr, truthy, hsnone]

/-- Claim C2 witness: the amended rule at a concrete `context` payload
with `short_suggestions = ["a", "b"]`. -/
theorem claim_C2_wit :
    ("context" = "context" ∨ "context" = "content_quality")
    ∧ showSuggBlock "context" witC2item = SuggBlock.list ["a", "b"] :=
  ⟨Or.inl rfl,
   (claim_C2_amended "context" witC2item (Or.inl rfl)).1 ["a", "b"] rfl (by decide)⟩

/-- Claim C3 counterexample: with a non-empty `missing_keywords`, the
suggestion paragraph script.js renders is not exactly the advisory string
— it carries a leading `💡 ` marker. -/
theorem claim_C3_cex :
    cexMissing.missing_keywords = some (SVal.arr ["python"])
    ∧ (["python"] : List String) ≠ []
    ∧ (mkCard "missingkeywords" cexMissing).sugg
        ≠ SuggBlock.para "Add these terms somewhere in your resume to improve ATS compatibility" :=
  ⟨rfl, by decide, by decide⟩

/-- Claim C3 (amended): for the `missingkeywords` section with a non-empty
`missing_keywords` sequence, the rendered suggestion text is the fixed
advisory string prefixed by the decorative `💡 ` marker, no list-type
suggestion built from `suggestions` or `short_suggestions` is rendered,
and the keywords themselves appear in the missing-keywords block. -/
theorem claim_C3_amended (item : SectionScore) (xs : List String)
    (hmk : item.missing_keywords = some (SVal.arr xs)) (hne : xs ≠ []) :
    (mkCard "missingkeywords" item).sugg = SuggBlock.para missingKeywordsAdvisory
    ∧ (∀ ys, (mkCard "missingkeywords" item).sugg ≠ SuggBlock.list ys)
    ∧ (mkCard "missingkeywords" item).missing = some xs := by
  refine ⟨rfl, fun ys h => by simp [mkCard, suggBlockFor] at h, ?_⟩
  simp [mkCard, missingBlock, hmk, hne]

/-- Claim C3 witness: the amended statement at a concrete payload with
`missing_keywords = ["python"]`. -/
theorem claim_C3_wit :
    cexMissing.missing_keywords = some (SVal.arr ["python"])
    ∧ (mkCard "missingkeywords" cexMissing).sugg = SuggBlock.para missingKeywordsAdvisory
    ∧ (mkCard "missingkeywords" cexMissing).missing = some ["python"] :=
  ⟨rfl, (claim_C3_amended cexMissing ["python"] rfl (by decide)).1,
   (claim_C3_amended cexMissing ["python"] rfl (by decide)).2.2⟩

/-- Claim C6: toggling a disclosure twice returns every element to its
initial visibility, and toggling one disclosure leaves the visibility of
every other element unchanged. -/
theorem claim_C6 (d : Dom) (id j : String) (hne : j ≠ id) :
    toggleTooltip id (toggleTooltip id d) = d
    ∧ (toggleTooltip id d).visible j = d.visible j := by
  obtain ⟨ex, vis⟩ := d
  constructor
  · by_cases h : ex id = true
    · simp only [toggleTooltip, h, if_true]
      congr 1
      funext jj
      by_cases hj : (jj == id) = true
      · simp [hj]
      · simp [hj]
    · simp [toggleTooltip, h]
  · by_cases h : ex id = true
    · have hj : (j == id) = false := by simpa using hne
      simp [toggleTooltip, h, hj, hne]
    · simp [toggleTooltip, h]

/-- Claim C6 witness: a concrete double toggle and a concrete untouched
element, on a DOM with two collapsed disclosures. -/
theorem claim_C6_wit :
    "total-tooltip" ≠ "context-tooltip"
    ∧ (toggleTooltip "context-tooltip" (toggleTooltip "context-tooltip" exDom) = exDom
       ∧ (toggleTooltip "context-tooltip" exDom).visible "total-tooltip"
           = exDom.visible "total-tooltip") :=
  ⟨by decide, claim_C6 exDom "context-tooltip" "total-tooltip" (by decide)⟩

/-- Claim C7: submitting with no resume file sets the status to
"Please upload a resume file.", issues zero network calls, and otherwise
leaves the page in its freshly reset state. -/
theorem claim_C7 (st0 : UIState) (inp : SubmitInput) (resp : HttpOutcome)
    (h : inp.resumeFiles = []) :
    handleSubmit st0 inp resp =
      { final := { resetUI st0 with statusText := "Please upload a resume file." }
      , fetchCount := 0, btnDisabledAtFetch := none } := by
  simp [handleSubmit, h]

/-- Claim C7 witness: the missing-resume submission at a concrete state
and response. -/
theorem claim_C7_wit :
    exNoResume.resumeFiles = []
    ∧ handleSubmit uiInit exNoResume (HttpOutcome.ok none) =
      { final := { resetUI uiInit with statusText := "Please upload a resume file." }
      , fetchCount := 0, btnDisabledAtFetch := none } :=
  ⟨rfl, claim_C7 uiInit exNoResume (HttpOutcome.ok none) rfl⟩

/-- Claim C8: a submission that passes validation and receives HTTP 500
surfaces a status message containing "500", renders no result views, and
leaves the result area showing its placeholder text. -/
theorem claim_C8 (st0 : UIState) (inp : SubmitInput)
    (h1 : (inp.resumeFiles.length == 0) = false)
    (h2 : (inp.jdFiles.length == 0) = false)
    (h3 : allowedTypes.contains (inp.resumeFiles.headD dWebFile).type = true)
    (h4 : allowedTypes.contains (inp.jdFiles.headD dWebFile).type = true) :
    containsSubstring
        (handleSubmit st0 inp (HttpOutcome.httpError 500)).final.statusText "500" = true
    ∧ (handleSubmit st0 inp (HttpOutcome.httpError 500)).final.resultsViews = []
    ∧ (handleSubmit st0 inp (HttpOutcome.httpError 500)).final.resultsPlaceholder = true
    ∧ (handleSubmit st0 inp (HttpOutcome.httpError 500)).final.resultsText = placeholderText := by
  cases hr : inp.resumeFiles with
  | nil => rw [hr] at h1; simp at h1
  | cons rf rfs =>
    cases hj : inp.jdFiles with
    | nil => rw [hj] at h2; simp at h2
    | cons jf jfs =>
      rw [hr] at h3
      rw [hj] at h4
      simp only [List.headD] at h3 h4
      simp at h3 h4
      refine ⟨?_, ?_, ?_, ?_⟩ <;> simp [handleSubmit, hr, hj, h3, h4, resetUI]
      decide

/-- Claim C8 witness: a valid PDF/PDF submission answered with HTTP 500. -/
theorem claim_C8_wit :
    (exInput.resumeFiles.length == 0) = false
    ∧ containsSubstring
        (handleSubmit uiInit exInput (HttpOutcome.httpError 500)).final.statusText "500" = true
    ∧ (handleSubmit uiInit exInput (HttpOutcome.httpError 500)).final.resultsViews = []
    ∧ (handleSubmit uiInit exInput (HttpOutcome.httpError 500)).final.resultsPlaceholder = true
    ∧ (handleSubmit uiInit exInput (HttpOutcome.httpError 500)).final.resultsText
        = placeholderText :=
  ⟨rfl, claim_C8 uiInit exInput rfl rfl (by decide) (by decide)⟩

/-- Claim C9: every submission that passes validation issues exactly one
network call, the analyze button is disabled at the moment of the call,
and it is re-enabled in the final state for every outcome (success, empty
body, non-2xx status, or thrown exception). -/
theorem claim_C9 (st0 : UIState) (inp : SubmitInput) (resp : HttpOutcome)
    (h1 : (inp.resumeFiles.length == 0) = false)
    (h2 : (inp.jdFiles.length == 0) = false)
    (h3 : allowedTypes.contains (inp.resumeFiles.headD dWebFile).type = true)
    (h4 : allowedTypes.contains (inp.jdFiles.headD dWebFile).type = true) :
    (handleSubmit st0 inp resp).fetchCount = 1
    ∧ (handleSubmit st0 inp resp).btnDisabledAtFetch = some true
    ∧ (handleSubmit st0 inp resp).final.analyzeDisabled = false := by
  cases hr : inp.resumeFiles with
  | nil => rw [hr] at h1; simp at h1
  | cons rf rfs =>
    cases hj : inp.jdFiles with
    | nil => rw [hj] at h2; simp at h2
    | cons jf jfs =>
      rw [hr] at h3
      rw [hj] at h4
      simp only [List.headD] at h3 h4
      simp at h3 h4
      cases resp with
      | ok result => cases result <;> simp [handleSubmit, hr, hj, h3, h4]
      | httpError code => simp [handleSubmit, hr, hj, h3, h4]
      | exn msg => simp [handleSubmit, hr, hj, h3, h4]

/-- Claim C9 witness: a valid PDF/PDF submission whose call throws. -/
theorem claim_C9_wit :
    (exInput.resumeFiles.length == 0) = false
    ∧ (handleSubmit uiInit exInput (HttpOutcome.exn "boom")).fetchCount = 1
    ∧ (handleSubmit uiInit exInput (HttpOutcome.exn "boom")).btnDisabledAtFetch = some true
    ∧ (handleSubmit uiInit exInput (HttpOutcome.exn "boom")).final.analyzeDisabled = false :=
  ⟨rfl, claim_C9 uiInit exInput (HttpOutcome.exn "boom") rfl rfl (by decide) (by decide)⟩

/-- Claim C10: for any key other than `missingkeywords`, a present but
empty `short_suggestions` sequence makes the suggestion block vanish
entirely — the empty array is truthy, so `suggestions` is never consulted,
and an empty array renders nothing. -/
theorem claim_C10 (key : String) (item : SectionScore)
    (hk : key ≠ "missingkeywords")
    (hs : item.short_suggestions = some (SVal.arr [])) :
    (mkCard key item).sugg = SuggBlock.empty := by
  have hbeq : (key == "missingkeywords") = false := by
    simpa using hk
  simp [mkCard, suggBlockFor, hbeq, jsOr, truthy, hs]

/-- Claim C10 witness: a `formatting` payload with an empty
`short_suggestions` array next to a non-empty `suggestions` array. -/
theorem claim_C10_wit :
    "formatting" ≠ "missingkeywords"
    ∧ witC10item.short_suggestions = some (SVal.arr [])
    ∧ witC10item.suggestions = some (SVal.arr ["x"])
    ∧ (mkCard "formatting" witC10item).sugg = SuggBlock.empty :=
  ⟨by decide, rfl, rfl, claim_C10 "formatting" witC10item (by decide) rfl⟩
